import Mathlib

set_option maxRecDepth 100000

/-!
Verification of the Omniplex-Newsroom pipeline scripts.

The development embeds, in order:
* the `SHA256Verifier` content-integrity ledger, which appears twice in the
  repository (`octopus_parliament_only.py` and `journalism_pipeline.py`) with a
  small difference in the key-already-present branch;
* the `We333ParliamentBrain` engine of `octopus_parliament_only.py`
  (ethics check, triple+SHA verification, per-arm error counters, freeze,
  drift check, gather loop);
* the `We333WestminsterWatch` engine of `octopus_we333.py`;
* the `JournalismPipeline` of `journalism_pipeline.py` (eight arms, fallible
  dictionary indexing and division modelled in `Except`).

Python dictionaries with string keys are embedded as association lists with
Python's assignment semantics (update in place if the key is present,
append otherwise).  The SHA-256 digest itself is a library call; it is
abstracted as a function parameter `H : String → Nat` throughout, so every
theorem about the ledger holds for the actual digest as a special case.
-/

/-- Lookup in an association list, as Python `d[k]` / `k in d`. -/
def lookupA {α : Type} : List (String × α) → String → Option α
  | [], _ => none
  | (k', v') :: rest, k => if k' = k then some v' else lookupA rest k

/-- Python dictionary assignment `d[k] = v`: update in place when the key is
present, append otherwise. -/
def dictSet {α : Type} : List (String × α) → String → α → List (String × α)
  | [], k, v => [(k, v)]
  | (k', v') :: rest, k, v =>
    if k' = k then (k', v) :: rest else (k', v') :: dictSet rest k v

theorem dictSet_self {α : Type} (m : List (String × α)) (k : String) (v : α)
    (h : lookupA m k = some v) : dictSet m k v = m := by
  induction m with
  | nil => simp [lookupA] at h
  | cons p rest ih =>
    obtain ⟨k', v'⟩ := p
    by_cases hk : k' = k
    · subst hk
      simp [lookupA] at h
      simp [dictSet, h]
    · simp [lookupA, hk] at h
      simp [dictSet, hk, ih h]

theorem lookupA_dictSet_self {α : Type} (m : List (String × α)) (k : String) (v : α) :
    lookupA (dictSet m k v) k = some v := by
  induction m with
  | nil => simp [dictSet, lookupA]
  | cons p rest ih =>
    obtain ⟨k', v'⟩ := p
    by_cases hk : k' = k
    · subst hk; simp [dictSet, lookupA]
    · simp [dictSet, hk, lookupA, ih]

/-- `SHA256Verifier.verify` of `octopus_parliament_only.py` (lines 57-68):
on a recorded key with a mismatching hash it returns `False` without writing;
otherwise it stores the current hash and returns `True`. -/
def verifyP (H : String → Nat) (m : List (String × Nat)) (key data : String) :
    Bool × List (String × Nat) :=
  let current := H data
  match lookupA m key with
  | some h => if h = current then (true, dictSet m key current) else (false, m)
  | none => (true, dictSet m key current)

/-- `SHA256Verifier.verify` of `journalism_pipeline.py` (lines 319-324):
on a recorded key it returns the hash comparison without writing; on a fresh
key it stores the current hash and returns `True`. -/
def verifyJ (H : String → Nat) (m : List (String × Nat)) (key data : String) :
    Bool × List (String × Nat) :=
  let current := H data
  match lookupA m key with
  | some h => (decide (h = current), m)
  | none => (true, dictSet m key current)

/-- C1: for every ledger and every recorded key, presenting content whose hash
equals the stored one is a no-op that reports success, while presenting
content with a different hash is rejected (`verify` returns `False`) and the
stored hash is not overwritten.  Both copies of `SHA256Verifier.verify`
return exactly `(decide (H data = h), m)` on a key recorded with hash `h`. -/
theorem c1_record_idempotent_mismatch_rejected
    (H : String → Nat) (m : List (String × Nat)) (key data : String) (h : Nat)
    (hl : lookupA m key = some h) :
    verifyP H m key data = (decide (H data = h), m) ∧
    verifyJ H m key data = (decide (H data = h), m) := by
  constructor
  · unfold verifyP
    rw [hl]
    by_cases hc : h = H data
    · subst hc
      simp [dictSet_self m key (H data) hl]
    · have hc' : ¬ H data = h := fun e => hc e.symm
      simp [hc, hc']
  · unfold verifyJ
    rw [hl]
    by_cases hc : h = H data
    · subst hc; simp
    · have hc' : ¬ H data = h := fun e => hc e.symm
      simp [hc, hc']

theorem c1_witness :
    lookupA [("k", 5)] "k" = some 5 ∧
    (verifyP String.length [("k", 5)] "k" "hello" = (decide ("hello".length = 5), [("k", 5)]) ∧
     verifyJ String.length [("k", 5)] "k" "hello" = (decide ("hello".length = 5), [("k", 5)])) :=
  ⟨by decide, c1_record_idempotent_mismatch_rejected String.length [("k", 5)] "k" "hello" 5 (by decide)⟩

/-- C2 counterexample: `verify` does mutate the ledger.  Verifying a fresh key
inserts the computed hash into the stored map in both copies of
`SHA256Verifier.verify`, so the map after the call differs from the map
before it. -/
theorem c2_counterexample :
    (verifyJ String.length [] "k" "c").2 ≠ ([] : List (String × Nat)) ∧
    (verifyP String.length [] "k" "c").2 ≠ ([] : List (String × Nat)) := by
  constructor <;> decide

/-- C2 amended: `verify` never mutates the stored hash map when the key is
already recorded; verifying a key absent from the map inserts the computed
hash (first-use recording). -/
theorem c2_verify_no_mutation_on_recorded_key
    (H : String → Nat) (m : List (String × Nat)) (key data : String) (h : Nat)
    (hl : lookupA m key = some h) :
    (verifyP H m key data).2 = m ∧ (verifyJ H m key data).2 = m := by
  constructor
  · unfold verifyP
    rw [hl]
    by_cases hc : h = H data
    · subst hc; simp [dictSet_self m key (H data) hl]
    · simp [hc]
  · unfold verifyJ
    rw [hl]

theorem c2_witness :
    lookupA [("k", 5)] "k" = some 5 ∧
    ((verifyP String.length [("k", 5)] "k" "c").2 = [("k", 5)] ∧
     (verifyJ String.length [("k", 5)] "k" "c").2 = [("k", 5)]) :=
  ⟨by decide, c2_verify_no_mutation_on_recorded_key String.length [("k", 5)] "k" "c" 5 (by decide)⟩

/-- C10: verifying a never-before-recorded key always succeeds and implicitly
records it: both copies of `SHA256Verifier.verify` return `True` on a key
absent from the map and afterwards the map binds the key to the hash of the
presented content, so a first verification can never detect tampering. -/
theorem c10_fresh_key_always_verifies
    (H : String → Nat) (m : List (String × Nat)) (key data : String)
    (hl : lookupA m key = none) :
    verifyP H m key data = (true, dictSet m key (H data)) ∧
    verifyJ H m key data = (true, dictSet m key (H data)) ∧
    lookupA (dictSet m key (H data)) key = some (H data) := by
  refine ⟨?_, ?_, lookupA_dictSet_self m key (H data)⟩
  · unfold verifyP; rw [hl]
  · unfold verifyJ; rw [hl]

theorem c10_witness :
    lookupA [("a", 1)] "k" = none ∧
    (verifyP String.length [("a", 1)] "k" "hello" = (true, dictSet [("a", 1)] "k" 5) ∧
     verifyJ String.length [("a", 1)] "k" "hello" = (true, dictSet [("a", 1)] "k" 5) ∧
     lookupA (dictSet [("a", 1)] "k" 5) "k" = some 5) :=
  ⟨by decide, c10_fresh_key_always_verifies String.length [("a", 1)] "k" "hello" (by decide)⟩

/-- Substring prefix test on character lists. -/
def prefixOfL : List Char → List Char → Bool
  | [], _ => true
  | _ :: _, [] => false
  | a :: as, b :: bs => a = b && prefixOfL as bs

/-- Substring occurrence test on character lists. -/
def containsSubL (pat : List Char) : List Char → Bool
  | [] => pat.isEmpty
  | c :: rest => prefixOfL pat (c :: rest) || containsSubL pat rest

/-- Python `pat in hay` on strings. -/
def containsSubstring (hay pat : String) : Bool :=
  containsSubL pat.data hay.data

/-- Wall-clock instant, as far as the scripts read it: the hour (used in the
SHA key of `triple_verify`) and the full `isoformat()` timestamp string. -/
structure Time where
  hour : Nat
  iso : String

/-- `OmniplexConstitution.human_judgment_preserved` (always `True`). -/
def human_judgment_preserved : Bool := true

/-- `OmniplexConstitution.zero_manipulation_check` (always `True`). -/
def zero_manipulation_check (_data : String) : Bool := true

/-- `OmniplexConstitution.check` of `octopus_parliament_only.py`
(lines 25-36). -/
def constitution_check (action : String) (data : String) : Bool :=
  if containsSubstring action "decision" && (human_judgment_preserved = false) then false
  else if zero_manipulation_check data = false then false
  else true

theorem constitution_check_true (action data : String) :
    constitution_check action data = true := by
  simp [constitution_check, human_judgment_preserved, zero_manipulation_check]

/-- The dictionary returned by `fetch_parliament_data`. -/
structure PData where
  type : String
  source : String
  timestamp : String
  data : String

/-- The `mock_endpoints` table of `fetch_parliament_data`. -/
def mock_endpoints : List (String × String) :=
  [("bills_monitor", "/bills/current"),
   ("votes_tracker", "/divisions/recent"),
   ("debates_analyzer", "/debates/today"),
   ("committees_watcher", "/committees/meetings"),
   ("questions_tracker", "/questions/written"),
   ("lords_monitor", "/lords/business"),
   ("amendments_tracker", "/bills/amendments"),
   ("future_calendar", "/calendar/upcoming")]

/-- `We333ParliamentBrain.fetch_parliament_data` (lines 168-191). -/
def fetch_parliament_data (arm_name : String) (t : Time) : PData :=
  { type := arm_name,
    source := "api.parliament.uk" ++ ((lookupA mock_endpoints arm_name).getD "/unknown"),
    timestamp := t.iso,
    data := "Mock Parliament data from " ++ arm_name }

/-- `json.dumps(data, sort_keys=True)` for the four-field dictionary of
`fetch_parliament_data` (keys in sorted order: data, source, timestamp,
type). -/
def serializePData (d : PData) : String :=
  "\x7b\"data\": \"" ++ d.data ++ "\", \"source\": \"" ++ d.source ++
  "\", \"timestamp\": \"" ++ d.timestamp ++ "\", \"type\": \"" ++ d.type ++ "\"\x7d"

/-- `We333ParliamentBrain.check_expected_pattern` (always `True`). -/
def check_expected_pattern (_d : PData) : Bool := true

/-- `We333ParliamentBrain.check_parliament_focus` (always `True`). -/
def check_parliament_focus : Bool := true

/-- Per-arm mutable record of `We333ParliamentBrain.arms`. -/
structure ArmP where
  status : String
  errors : Nat

/-- Mutable state of a `We333ParliamentBrain` instance: the `frozen` flag,
the eight-arm table, the `SHA256Verifier` hash map and the time (in minutes)
of the last drift check. -/
structure BrainState where
  frozen : Bool
  arms : List (String × ArmP)
  hashes : List (String × Nat)
  last_drift : Nat

/-- The arm table built by `We333ParliamentBrain.__init__`. -/
def initArms : List (String × ArmP) :=
  [("bills_monitor", ⟨"ready", 0⟩),
   ("votes_tracker", ⟨"ready", 0⟩),
   ("debates_analyzer", ⟨"ready", 0⟩),
   ("committees_watcher", ⟨"ready", 0⟩),
   ("questions_tracker", ⟨"ready", 0⟩),
   ("lords_monitor", ⟨"ready", 0⟩),
   ("amendments_tracker", ⟨"ready", 0⟩),
   ("future_calendar", ⟨"ready", 0⟩)]

/-- State right after `We333ParliamentBrain.__init__` (with the construction
instant taken as minute 0). -/
def initBrain : BrainState :=
  { frozen := false, arms := initArms, hashes := [], last_drift := 0 }

/-- `We333ParliamentBrain.freeze` (lines 157-166): set `frozen`, mark every
arm `frozen`. -/
def freezeBrain (s : BrainState) : BrainState :=
  { s with frozen := true,
           arms := s.arms.map (fun p => (p.1, { p.2 with status := "frozen" })) }

/-- `We333ParliamentBrain.triple_verify` (lines 120-145): source, structure
and pattern checks plus the `SHA256Verifier.verify` call; the hash map after
the call is returned alongside the verdict.  The structure check
`isinstance(data, dict) and len(data) > 0` holds for the four-field fetched
dictionary. -/
def triple_verify (H : String → Nat) (t : Time) (m : List (String × Nat)) (d : PData) :
    Bool × List (String × Nat) :=
  let sourceOk := containsSubstring d.source "parliament.uk"
  let structureOk := true
  let patternOk := check_expected_pattern d
  let r := verifyP H m (d.type ++ "_" ++ toString t.hour) (serializePData d)
  (sourceOk && structureOk && patternOk && r.1, r.2)

/-- Increment `self.arms[arm_name]['errors']` (in-place update of one key). -/
def bumpErrors : List (String × ArmP) → String → List (String × ArmP)
  | [], _ => []
  | (k, v) :: rest, name =>
    if k = name then (k, { v with errors := v.errors + 1 }) :: rest
    else (k, v) :: bumpErrors rest name

/-- Read `self.arms[arm_name]['errors']` (0 when the arm is absent; the
gather loop only ever supplies names present in the table). -/
def errorsOf (arms : List (String × ArmP)) (name : String) : Nat :=
  ((lookupA arms name).map ArmP.errors).getD 0

/-- `We333ParliamentBrain.process_arm` (lines 193-211): ethics check, fetch,
triple+SHA verification; on failure the arm's error counter is incremented
and the brain freezes once the counter reaches 3. -/
def process_arm (H : String → Nat) (t : Time) (s : BrainState) (arm_name : String) :
    Option PData × BrainState :=
  if constitution_check ("fetch_" ++ arm_name) arm_name = false then (none, s)
  else
    let data := fetch_parliament_data arm_name t
    let r := triple_verify H t s.hashes data
    if r.1 then (some data, { s with hashes := r.2 })
    else
      let arms' := bumpErrors s.arms arm_name
      let s' := { s with hashes := r.2, arms := arms' }
      if 3 ≤ errorsOf arms' arm_name then (none, freezeBrain s') else (none, s')

/-- Result of `We333ParliamentBrain.gather_intelligence`: either the
`{"status": "frozen"}` marker or the gathered intelligence dictionary. -/
inductive GatherOutcome where
  | frozenStatus
  | intel (items : List (String × PData))

/-- The arm loop of `gather_intelligence` (lines 221-229), iterating over the
keys of `self.arms` and reading each arm's current status. -/
def gatherArmsP (H : String → Nat) (t : Time) :
    List String → BrainState → List (String × PData) → List (String × PData) × BrainState
  | [], s, acc => (acc, s)
  | name :: rest, s, acc =>
    match lookupA s.arms name with
    | some a =>
      if a.status = "ready" then
        let r := process_arm H t s name
        match r.1 with
        | some d => gatherArmsP H t rest r.2 (acc ++ [(name, d)])
        | none => gatherArmsP H t rest r.2 acc
      else gatherArmsP H t rest s acc
    | none => gatherArmsP H t rest s acc

/-- `We333ParliamentBrain.gather_intelligence` (lines 213-231). -/
def gather_intelligence (H : String → Nat) (t : Time) (s : BrainState) :
    GatherOutcome × BrainState :=
  if s.frozen then (GatherOutcome.frozenStatus, s)
  else
    let r := gatherArmsP H t (s.arms.map (·.1)) s []
    (GatherOutcome.intel r.1, r.2)

/-- `We333ParliamentBrain.drift_check` (lines 97-118), with the clock read as
minutes `tm`.  The five health checks are `check_parliament_focus`, the
eight-arm count, the presence of the ethics and SHA objects (always present)
and the `We333_mode` literal. -/
def drift_check (tm : Nat) (s : BrainState) : Bool × BrainState :=
  if 30 < tm - s.last_drift then
    let checks := check_parliament_focus && decide (s.arms.length = 8) &&
      true && true && true
    if checks = false then (false, freezeBrain s)
    else (true, { s with last_drift := tm })
  else (true, s)

/-- One iteration of the `while not self.frozen` body of
`We333ParliamentBrain.run` (lines 253-298): drift check, then gather. -/
def run_step (H : String → Nat) (tm : Nat) (t : Time) (s : BrainState) : BrainState :=
  if s.frozen then s
  else
    let r := drift_check tm s
    if r.1 = false then r.2
    else (gather_intelligence H t r.2).2

/-- The dictionary returned by `We333WestminsterWatch.collect_from_arm`. -/
structure CollectData where
  source : String
  timestamp : String
  data : String

/-- The dictionary returned by `We333WestminsterWatch.get_human_context`. -/
structure HumanContext where
  human_insight : String

/-- The dictionary returned by `We333WestminsterWatch.we333_merge`. -/
structure Merged where
  ai_perspective : CollectData
  human_wisdom : HumanContext
  our_synthesis : String
  we333_verified : Bool

/-- Per-arm mutable record of `We333WestminsterWatch.arms`. -/
structure ArmW where
  status : String
  last_data : Option Merged
  errors : Nat
  we333_verified : Bool

/-- Mutable state of a `We333WestminsterWatch` instance. -/
structure WeState where
  frozen : Bool
  arms : List (String × ArmW)
  last_drift_check : Nat
  we333_mode : Bool

/-- The arm table built by `initialize` of OUR arms in
`We333WestminsterWatch.__init__`. -/
def initWeArms : List (String × ArmW) :=
  [("parliament_monitor", ⟨"ready", none, 0, false⟩),
   ("council_tracker", ⟨"ready", none, 0, false⟩),
   ("x_sentiment", ⟨"ready", none, 0, false⟩),
   ("bias_detector", ⟨"ready", none, 0, false⟩),
   ("economics_tracker", ⟨"ready", none, 0, false⟩),
   ("crime_monitor", ⟨"ready", none, 0, false⟩),
   ("weather_crisis", ⟨"ready", none, 0, false⟩),
   ("future_simulator", ⟨"ready", none, 0, false⟩)]

/-- State right after `We333WestminsterWatch.__init__`. -/
def initWeState : WeState :=
  { frozen := false, arms := initWeArms, last_drift_check := 0, we333_mode := true }

/-- `We333WestminsterWatch.we_freeze` (lines 110-128): set `frozen`, mark
every arm `frozen`. -/
def we_freeze (s : WeState) : WeState :=
  { s with frozen := true,
           arms := s.arms.map (fun p => (p.1, { p.2 with status := "frozen" })) }

/-- `verify_primary_source` (always `True`). -/
def verify_primary_source (_d : Merged) : Bool := true

/-- `verify_secondary_source` (always `True`). -/
def verify_secondary_source (_d : Merged) : Bool := true

/-- `verify_pattern_match` (always `True`). -/
def verify_pattern_match (_d : Merged) : Bool := true

/-- `await_human_verification` (always `True` in this script). -/
def await_human_verification : Bool := true

/-- `We333WestminsterWatch.we333_triple_check` (lines 84-108): three AI
checks plus the human check; when the conjunction fails the whole system is
frozen on the spot. -/
def we333_triple_check (d : Merged) (s : WeState) : Bool × WeState :=
  let weVerified := verify_primary_source d && verify_secondary_source d &&
    verify_pattern_match d && await_human_verification
  if weVerified = false then (false, we_freeze s) else (true, s)

/-- `We333WestminsterWatch.collect_from_arm` (lines 186-193). -/
def collect_from_arm (arm_name : String) (t : Time) : CollectData :=
  { source := arm_name, timestamp := t.iso, data := "Mock data from " ++ arm_name }

/-- `We333WestminsterWatch.get_human_context` (lines 181-184). -/
def get_human_context (_arm_name : String) : HumanContext :=
  { human_insight := "Local knowledge added" }

/-- `We333WestminsterWatch.we333_merge` (lines 167-174). -/
def we333_merge (ai_data : CollectData) (human_context : HumanContext) : Merged :=
  { ai_perspective := ai_data, human_wisdom := human_context,
    our_synthesis := "Combined understanding", we333_verified := true }

/-- Result of `We333WestminsterWatch.collaborative_gather`: a status-only
dictionary or the gathered intelligence. -/
inductive WeGatherOutcome where
  | statusMsg (msg : String)
  | intel (items : List (String × Merged))

/-- Update one arm of the `We333WestminsterWatch` table in place. -/
def updateArmW (arms : List (String × ArmW)) (name : String) (f : ArmW → ArmW) :
    List (String × ArmW) :=
  arms.map (fun p => if p.1 = name then (p.1, f p.2) else p)

/-- The arm loop of `collaborative_gather` (lines 138-163), including the
early `return` taken when an arm's error count reaches 3. -/
def gatherArmsW (t : Time) :
    List String → WeState → List (String × Merged) → WeGatherOutcome × WeState
  | [], s, acc => (WeGatherOutcome.intel acc, s)
  | name :: rest, s, acc =>
    match lookupA s.arms name with
    | some a =>
      if a.status = "ready" then
        let ai_data := collect_from_arm name t
        let human_context := get_human_context name
        let merged := we333_merge ai_data human_context
        let r := we333_triple_check merged s
        if r.1 then
          let arms' := updateArmW r.2.arms name
            (fun x => { x with last_data := some merged, we333_verified := true })
          gatherArmsW t rest { r.2 with arms := arms' } (acc ++ [(name, merged)])
        else
          let arms' := updateArmW r.2.arms name (fun x => { x with errors := x.errors + 1 })
          let s' := { r.2 with arms := arms' }
          if 3 ≤ ((lookupA s'.arms name).map ArmW.errors).getD 0 then
            (WeGatherOutcome.statusMsg "WE are fixing together", we_freeze s')
          else gatherArmsW t rest s' acc
      else gatherArmsW t rest s acc
    | none => gatherArmsW t rest s acc

/-- `We333WestminsterWatch.collaborative_gather` (lines 130-165). -/
def collaborative_gather (t : Time) (s : WeState) : WeGatherOutcome × WeState :=
  if s.frozen then (WeGatherOutcome.statusMsg "WE are reviewing together", s)
  else gatherArmsW t (s.arms.map (·.1)) s []

/-- `check_uk_focus` (always `True`). -/
def check_uk_focus : Bool := true

/-- `check_simplicity` (always `True`). -/
def check_simplicity : Bool := true

/-- `check_truth_priority` (always `True`). -/
def check_truth_priority : Bool := true

/-- `check_zero_manipulation` (always `True`). -/
def check_zero_manipulation : Bool := true

/-- `We333WestminsterWatch.we333_drift_check` (lines 56-82), with the clock
read as minutes `tm`. -/
def we333_drift_check (tm : Nat) (s : WeState) : Bool × WeState :=
  if 30 < tm - s.last_drift_check then
    let checks := check_uk_focus && decide (s.arms.length = 8) &&
      check_simplicity && check_truth_priority && check_zero_manipulation
    if checks = false then (false, we_freeze s)
    else (true, { s with last_drift_check := tm })
  else (true, s)

/-- One iteration of the `while not self.frozen` body of
`We333WestminsterWatch.run` (lines 246-281): drift check, then gather. -/
def we_run_step (tm : Nat) (t : Time) (s : WeState) : WeState :=
  if s.frozen then s
  else
    let r := we333_drift_check tm s
    if r.1 = false then r.2
    else (collaborative_gather t r.2).2

theorem lookupA_bumpErrors (arms : List (String × ArmP)) (name : String) (a : ArmP)
    (h : lookupA arms name = some a) :
    lookupA (bumpErrors arms name) name = some { a with errors := a.errors + 1 } := by
  induction arms with
  | nil => simp [lookupA] at h
  | cons p rest ih =>
    obtain ⟨k, v⟩ := p
    by_cases hk : k = name
    · subst hk
      simp [lookupA] at h
      subst h
      simp [bumpErrors, lookupA]
    · simp [lookupA, hk] at h
      simp [bumpErrors, lookupA, hk, ih h]

theorem errorsOf_bumpErrors (arms : List (String × ArmP)) (name : String) (a : ArmP)
    (h : lookupA arms name = some a) :
    errorsOf (bumpErrors arms name) name = a.errors + 1 := by
  simp [errorsOf, lookupA_bumpErrors arms name a h]

/-- Failing `process_arm` freezes the brain exactly when the arm's error count
reaches 3 (the engine was already frozen, or this failure is at least the
third). -/
theorem process_arm_fail_frozen (H : String → Nat) (t : Time) (s : BrainState)
    (name : String) (a : ArmP) (hl : lookupA s.arms name = some a)
    (hv : (triple_verify H t s.hashes (fetch_parliament_data name t)).1 = false) :
    (process_arm H t s name).2.frozen = (s.frozen || decide (3 ≤ a.errors + 1)) := by
  unfold process_arm
  simp only [constitution_check_true]
  rw [hv]
  simp only [Bool.false_eq_true, if_false, Bool.true_eq_false, if_true]
  rw [errorsOf_bumpErrors s.arms name a hl]
  by_cases hc : 3 ≤ a.errors + 1
  · simp [hc, freezeBrain]
  · simp [hc]

/-- C4: while the engine is frozen the gather operation fails fast for every
item without touching any item state: with `frozen = true`,
`gather_intelligence` returns only the `{"status": "frozen"}` outcome and
`collaborative_gather` returns only its status dictionary, and both leave the
whole state (every arm's status, error counter and last data) unchanged. -/
theorem c4_frozen_gather_fails_fast (H : String → Nat) (t t2 : Time)
    (sp : BrainState) (sw : WeState)
    (hp : sp.frozen = true) (hw : sw.frozen = true) :
    gather_intelligence H t sp = (GatherOutcome.frozenStatus, sp) ∧
    collaborative_gather t2 sw = (WeGatherOutcome.statusMsg "WE are reviewing together", sw) := by
  constructor
  · simp [gather_intelligence, hp]
  · simp [collaborative_gather, hw]

theorem c4_witness :
    (freezeBrain initBrain).frozen = true ∧ (we_freeze initWeState).frozen = true ∧
    (gather_intelligence String.length ⟨0, "Z"⟩ (freezeBrain initBrain) =
      (GatherOutcome.frozenStatus, freezeBrain initBrain) ∧
     collaborative_gather ⟨0, "Z"⟩ (we_freeze initWeState) =
      (WeGatherOutcome.statusMsg "WE are reviewing together", we_freeze initWeState)) :=
  ⟨rfl, rfl,
   c4_frozen_gather_fails_fast String.length ⟨0, "Z"⟩ ⟨0, "Z"⟩
     (freezeBrain initBrain) (we_freeze initWeState) rfl rfl⟩

/-- C5: once `frozen` is true it is never cleared automatically: every
operation of both engines (drift check, gather, `process_arm`, the triple
checks, one iteration of the main run loop) leaves `frozen` true; no
operation in either script ever assigns `frozen = False` (there is no
unfreeze call in the code at all).  `triple_verify` of the Parliament brain
returns only a verdict and a hash map and cannot touch `frozen`. -/
theorem c5_frozen_never_cleared_automatically (H : String → Nat) (t : Time) (tm : Nat)
    (name : String) (d : Merged) (sp : BrainState) (sw : WeState)
    (hp : sp.frozen = true) (hw : sw.frozen = true) :
    (process_arm H t sp name).2.frozen = true ∧
    (gather_intelligence H t sp).2.frozen = true ∧
    (drift_check tm sp).2.frozen = true ∧
    (run_step H tm t sp).frozen = true ∧
    (we333_triple_check d sw).2.frozen = true ∧
    (collaborative_gather t sw).2.frozen = true ∧
    (we333_drift_check tm sw).2.frozen = true ∧
    (we_run_step tm t sw).frozen = true := by
  refine ⟨?_, ?_, ?_, ?_, ?_, ?_, ?_, ?_⟩
  · unfold process_arm
    simp only [constitution_check_true]
    split
    · exact hp
    · split
      · exact hp
      · split
        · simp [freezeBrain]
        · exact hp
  · simp [gather_intelligence, hp]
  · simp only [drift_check]
    split
    · split
      · simp [freezeBrain]
      · exact hp
    · exact hp
  · simp [run_step, hp]
  · simp [we333_triple_check, verify_primary_source, verify_secondary_source,
      verify_pattern_match, await_human_verification, hw]
  · simp [collaborative_gather, hw]
  · simp only [we333_drift_check]
    split
    · split
      · simp [we_freeze]
      · exact hw
    · exact hw
  · simp [we_run_step, hw]

theorem c5_witness :
    (freezeBrain initBrain).frozen = true ∧ (we_freeze initWeState).frozen = true ∧
    ((process_arm String.length ⟨0, "Z"⟩ (freezeBrain initBrain) "bills_monitor").2.frozen = true ∧
     (gather_intelligence String.length ⟨0, "Z"⟩ (freezeBrain initBrain)).2.frozen = true ∧
     (drift_check 0 (freezeBrain initBrain)).2.frozen = true ∧
     (run_step String.length 0 ⟨0, "Z"⟩ (freezeBrain initBrain)).frozen = true ∧
     (we333_triple_check (we333_merge (collect_from_arm "x" ⟨0, "Z"⟩) (get_human_context "x"))
        (we_freeze initWeState)).2.frozen = true ∧
     (collaborative_gather ⟨0, "Z"⟩ (we_freeze initWeState)).2.frozen = true ∧
     (we333_drift_check 0 (we_freeze initWeState)).2.frozen = true ∧
     (we_run_step 0 ⟨0, "Z"⟩ (we_freeze initWeState)).frozen = true) :=
  ⟨rfl, rfl,
   c5_frozen_never_cleared_automatically String.length ⟨0, "Z"⟩ 0 "bills_monitor"
     (we333_merge (collect_from_arm "x" ⟨0, "Z"⟩) (get_human_context "x"))
     (freezeBrain initBrain) (we_freeze initWeState) rfl rfl⟩

/-- C6: escalation happens strictly past the retry ceiling (`maxRetry = 2`,
the hard-coded threshold 3 in `process_arm`): when a verification failure is
the arm's second accumulated failure the engine does not freeze, and the
third failure for the same arm does freeze it. -/
theorem c6_escalation_strictly_past_retry_ceiling (H : String → Nat) (t : Time)
    (s : BrainState) (name : String) (a : ArmP)
    (hf : s.frozen = false) (hl : lookupA s.arms name = some a)
    (hv : (triple_verify H t s.hashes (fetch_parliament_data name t)).1 = false) :
    (a.errors + 1 ≤ 2 → (process_arm H t s name).2.frozen = false) ∧
    (a.errors + 1 = 3 → (process_arm H t s name).2.frozen = true) := by
  have h := process_arm_fail_frozen H t s name a hl hv
  rw [hf] at h
  constructor
  · intro hx
    rw [h]
    simp
    omega
  · intro hx
    rw [h]
    simp
    omega

theorem c6_witness :
    (({ frozen := false, arms := [("bills_monitor", ⟨"ready", 1⟩)],
        hashes := [("bills_monitor_10", 999)], last_drift := 0 } : BrainState).frozen = false ∧
     (process_arm String.length ⟨10, "A"⟩
        { frozen := false, arms := [("bills_monitor", ⟨"ready", 1⟩)],
          hashes := [("bills_monitor_10", 999)], last_drift := 0 }
        "bills_monitor").2.frozen = false) ∧
    (process_arm String.length ⟨10, "A"⟩
        { frozen := false, arms := [("bills_monitor", ⟨"ready", 2⟩)],
          hashes := [("bills_monitor_10", 999)], last_drift := 0 }
        "bills_monitor").2.frozen = true :=
  ⟨⟨rfl,
    (c6_escalation_strictly_past_retry_ceiling String.length ⟨10, "A"⟩
      { frozen := false, arms := [("bills_monitor", ⟨"ready", 1⟩)],
        hashes := [("bills_monitor_10", 999)], last_drift := 0 }
      "bills_monitor" ⟨"ready", 1⟩ rfl rfl rfl).1 (by decide)⟩,
   (c6_escalation_strictly_past_retry_ceiling String.length ⟨10, "A"⟩
      { frozen := false, arms := [("bills_monitor", ⟨"ready", 2⟩)],
        hashes := [("bills_monitor_10", 999)], last_drift := 0 }
      "bills_monitor" ⟨"ready", 2⟩ rfl rfl rfl).2 rfl⟩

/-- States of `We333ParliamentBrain` reachable from construction using only
the gather operation (`gather_intelligence`, which invokes `process_arm` per
arm); the drift supervisor's `drift_check` is never invoked along such a
trace. -/
inductive ReachByGather : (String → Nat) → BrainState → Prop where
  | init (H : String → Nat) : ReachByGather H initBrain
  | gather (H : String → Nat) (t : Time) (s : BrainState) :
      ReachByGather H s → ReachByGather H (gather_intelligence H t s).2

def c3s1 : BrainState := (gather_intelligence String.length ⟨10, "A"⟩ initBrain).2

def c3s2 : BrainState := (gather_intelligence String.length ⟨10, "BB"⟩ c3s1).2

def c3s3 : BrainState := (gather_intelligence String.length ⟨10, "CCC"⟩ c3s2).2

def c3s4 : BrainState := (gather_intelligence String.length ⟨10, "DDDD"⟩ c3s3).2

/-- C3 counterexample: the engine can be frozen by a single item's failures
with the drift supervisor never involved.  Starting from construction and
taking four gather steps in the same hour (so every arm's SHA key collides
with a previous fetch whose serialized payload hashes differently), the
first arm accumulates three verification failures and `process_arm` freezes
the engine directly: the resulting state is reachable by gather operations
alone, was not frozen before the fourth gather, and is frozen after it. -/
theorem c3_counterexample :
    ReachByGather String.length c3s4 ∧ c3s3.frozen = false ∧ c3s4.frozen = true :=
  ⟨ReachByGather.gather String.length ⟨10, "DDDD"⟩ c3s3
    (ReachByGather.gather String.length ⟨10, "CCC"⟩ c3s2
      (ReachByGather.gather String.length ⟨10, "BB"⟩ c3s1
        (ReachByGather.gather String.length ⟨10, "A"⟩ initBrain
          (ReachByGather.init String.length)))),
   rfl, rfl⟩

/-- C3 amended: the engine's `frozen` flag is never set by the drift
supervisor's aggregate health check (whose predicates all hold in any state
with the eight-arm table intact, so `drift_check` leaves `frozen`
unchanged); instead a single arm's verification failure freezes the engine
directly in `process_arm` as soon as that arm's error count reaches 3. -/
theorem c3_amended_drift_never_freezes_single_arm_does
    (tm : Nat) (H : String → Nat) (t : Time) (s : BrainState) (name : String) (a : ArmP)
    (h8 : s.arms.length = 8)
    (hl : lookupA s.arms name = some a)
    (hv : (triple_verify H t s.hashes (fetch_parliament_data name t)).1 = false)
    (he : 2 ≤ a.errors) :
    (drift_check tm s).2.frozen = s.frozen ∧
    (process_arm H t s name).2.frozen = true := by
  constructor
  · simp only [drift_check]
    split
    · simp [check_parliament_focus, h8]
    · rfl
  · rw [process_arm_fail_frozen H t s name a hl hv]
    have h3 : 3 ≤ a.errors + 1 := by omega
    simp [h3]

def c3sA : BrainState :=
  { frozen := false,
    arms := [("bills_monitor", ⟨"ready", 2⟩),
             ("votes_tracker", ⟨"ready", 0⟩),
             ("debates_analyzer", ⟨"ready", 0⟩),
             ("committees_watcher", ⟨"ready", 0⟩),
             ("questions_tracker", ⟨"ready", 0⟩),
             ("lords_monitor", ⟨"ready", 0⟩),
             ("amendments_tracker", ⟨"ready", 0⟩),
             ("future_calendar", ⟨"ready", 0⟩)],
    hashes := [("bills_monitor_10", 999)],
    last_drift := 0 }

theorem c3_witness :
    (c3sA.arms.length = 8 ∧ 2 ≤ (2 : Nat)) ∧
    ((drift_check 0 c3sA).2.frozen = c3sA.frozen ∧
     (process_arm String.length ⟨10, "A"⟩ c3sA "bills_monitor").2.frozen = true) :=
  ⟨⟨rfl, by decide⟩,
   c3_amended_drift_never_freezes_single_arm_does 0 String.length ⟨10, "A"⟩ c3sA
     "bills_monitor" ⟨"ready", 2⟩ rfl rfl rfl (by decide)⟩

/-- A fact dictionary as produced by `extract_facts`. -/
structure FactDoc where
  claim : String
  source : String

/-- A source dictionary as consumed by `verify_sources` (`id` and `content`
are read with direct indexing; `credibility` and `sha_verified` are written
by the stage). -/
structure SourceDoc where
  id : String
  content : String
  credibility : Option ℚ := none
  sha_verified : Option Bool := none

/-- `call_parliament_api` result `{'bills': [], 'votes': []}`. -/
structure ParliamentApiData where
  bills : List String := []
  votes : List String := []

/-- `call_gov_api` result `{'statements': []}`. -/
structure GovApiData where
  statements : List String := []

/-- `call_news_apis` result `{'articles': []}`. -/
structure NewsApiData where
  articles : List String := []

/-- The `api_data` dictionary of `aggregate_apis` (the parliament entry is
present only for parliament-typed stories). -/
structure ApiData where
  parliament : Option ParliamentApiData := none
  gov_uk : GovApiData := {}
  news : NewsApiData := {}

/-- The `context` dictionary of `build_context`. -/
structure ContextDoc where
  historical : String
  stakeholder_positions : List (String × String)
  related_events : List String
  future_implications : String

/-- The `bias_analysis` dictionary of `detect_bias`. -/
structure BiasDoc where
  left_sources : List SourceDoc := []
  center_sources : List SourceDoc := []
  right_sources : List SourceDoc := []
  bias_score : ℚ := 0

/-- The evolving story/analysis/publication dictionary of
`journalism_pipeline.py`.  Every key the scripts ever store is a field; a
`none` field models an absent key (the demo never stores Python `None` under
a key it later indexes). -/
structure Doc where
  headline : Option String := none
  source : Option String := none
  importance : Option Nat := none
  timestamp : Option String := none
  type : Option String := none
  stakeholders : Option (List String) := none
  impact : Option String := none
  requires_verification : Option Bool := none
  verified_facts : Option (List FactDoc) := none
  verification_rate : Option ℚ := none
  sources : Option (List SourceDoc) := none
  api_data : Option ApiData := none
  context : Option ContextDoc := none
  bias_analysis : Option BiasDoc := none
  summary : Option String := none
  sources_cited : Option Nat := none
  bias_disclosure : Option BiasDoc := none
  publication_time : Option String := none
  website_target : Option String := none
  sha_signature : Option Nat := none
  status : Option String := none

/-- Python exceptions the pipeline can raise: `KeyError` from direct dict
indexing and `ZeroDivisionError` from the verification-rate division. -/
inductive PyErr where
  | keyError (key : String)
  | zeroDivisionError

/-- Whether an `Except` computation returned a value (no exception). -/
def exOk {ε α : Type} : Except ε α → Bool
  | Except.ok _ => true
  | Except.error _ => false

/-- `JournalismPipeline.check_parliament` (line 234). -/
def check_parliament : List Doc :=
  [{ headline := some "New Climate Bill Debate", source := some "parliament",
     importance := some 8 }]

/-- `JournalismPipeline.check_bbc` (line 237). -/
def check_bbc : List Doc :=
  [{ headline := some "Breaking: Economic Update", source := some "bbc",
     importance := some 7 }]

/-- `JournalismPipeline.check_x_twitter` (line 240). -/
def check_x_twitter : List Doc :=
  [{ headline := some "Trending: NHS Discussion", source := some "twitter",
     importance := some 6 }]

/-- Stable insertion for descending sort by `importance` (Python
`sort(key=..., reverse=True)`). -/
def insertByImportance (d : Doc) : List Doc → List Doc
  | [] => [d]
  | e :: rest =>
    if e.importance.getD 0 < d.importance.getD 0 then d :: e :: rest
    else e :: insertByImportance d rest

/-- Descending stable sort by `importance`. -/
def sortByImportance : List Doc → List Doc
  | [] => []
  | d :: rest => insertByImportance d (sortByImportance rest)

/-- `JournalismPipeline.hunt_stories` (lines 54-76): gather the three mock
story lists, sort by newsworthiness, keep the top 3. -/
def hunt_stories (_sources : Unit) : List Doc :=
  (sortByImportance (check_parliament ++ check_bbc ++ check_x_twitter)).take 3

/-- `classify_story` (line 243). -/
def classify_story (story : Doc) : String :=
  if containsSubstring (story.source.getD "") "parliament" then "political" else "general"

/-- `identify_stakeholders` (line 246). -/
def identify_stakeholders (_story : Doc) : List String :=
  ["Government", "Opposition", "Public"]

/-- `assess_impact` (line 249). -/
def assess_impact (story : Doc) : String :=
  if 7 < story.importance.getD 0 then "high" else "medium"

/-- `OmniplexJournalismEthics.check_story_ethics` (lines 298-303, always
`True`). -/
def check_story_ethics (_story : Doc) : Bool := true

/-- `OmniplexJournalismEthics.approve_publication` (lines 305-307): truthy
iff `verified_facts` is non-empty and `sources_cited` is positive. -/
def approve_publication (publication : Doc) : Bool :=
  !(publication.verified_facts.getD []).isEmpty &&
    decide (0 < publication.sources_cited.getD 0)

/-- `JournalismPipeline.analyze_story` (lines 78-98): build a fresh analysis
dictionary; an ethics rejection would return the empty dictionary. -/
def analyze_story (now : String) (story : Doc) : Doc :=
  let analysis : Doc :=
    { headline := story.headline, source := story.source, timestamp := some now,
      type := some (classify_story story),
      stakeholders := some (identify_stakeholders story),
      impact := some (assess_impact story), requires_verification := some true }
  if check_story_ethics analysis then analysis else {}

/-- `extract_facts` (line 252). -/
def extract_facts (_analysis : Doc) : List FactDoc :=
  [{ claim := "Sample fact", source := "test" }]

/-- `check_primary_source` (always `True`). -/
def check_primary_source (_f : FactDoc) : Bool := true

/-- `check_secondary_source` (always `True`). -/
def check_secondary_source (_f : FactDoc) : Bool := true

/-- `check_historical_pattern` (always `True`). -/
def check_historical_pattern (_f : FactDoc) : Bool := true

/-- `JournalismPipeline.fact_check` (lines 100-122): triple-check each
extracted fact; the verification rate divides by the number of facts and
raises `ZeroDivisionError` when there are none. -/
def fact_check (analysis : Doc) : Except PyErr Doc :=
  let facts := extract_facts analysis
  let verified := facts.filter (fun f =>
    check_primary_source f && check_secondary_source f && check_historical_pattern f)
  if facts.length = 0 then Except.error PyErr.zeroDivisionError
  else
    Except.ok { analysis with
      verified_facts := some verified,
      verification_rate := some ((verified.length : ℚ) / (facts.length : ℚ)) }

/-- `check_source_credibility` (line 264). -/
def check_source_credibility (_s : SourceDoc) : ℚ := 8 / 10

/-- The source loop of `verify_sources` (lines 128-136), threading the SHA
map through `SHA256Verifier.verify`. -/
def verifySourcesGo (H : String → Nat) :
    List SourceDoc → List (String × Nat) → List SourceDoc × List (String × Nat)
  | [], m => ([], m)
  | s :: rest, m =>
    let credibility := check_source_credibility s
    let r := verifyJ H m s.id s.content
    let s' := { s with credibility := some credibility, sha_verified := some r.1 }
    let t' := verifySourcesGo H rest r.2
    (s' :: t'.1, t'.2)

/-- `JournalismPipeline.verify_sources` (lines 124-138). -/
def verify_sources (H : String → Nat) (analysis : Doc) (m : List (String × Nat)) :
    Doc × List (String × Nat) :=
  match analysis.sources with
  | none => (analysis, m)
  | some l =>
    let r := verifySourcesGo H l m
    ({ analysis with sources := some r.1 }, r.2)

/-- `call_parliament_api` (line 267). -/
def call_parliament_api (_a : Doc) : ParliamentApiData := {}

/-- `call_gov_api` (line 270). -/
def call_gov_api (_a : Doc) : GovApiData := {}

/-- `call_news_apis` (line 273). -/
def call_news_apis (_a : Doc) : NewsApiData := {}

/-- `JournalismPipeline.aggregate_apis` (lines 140-159). -/
def aggregate_apis (analysis : Doc) : Doc :=
  let api : ApiData :=
    { parliament :=
        if containsSubstring (analysis.type.getD "") "parliament" then
          some (call_parliament_api analysis)
        else none,
      gov_uk := call_gov_api analysis, news := call_news_apis analysis }
  { analysis with api_data := some api }

/-- `get_historical_context` (line 276). -/
def get_historical_context (_a : Doc) : String := "Historical context here"

/-- `get_stakeholder_positions` (line 279). -/
def get_stakeholder_positions (_a : Doc) : List (String × String) := []

/-- `find_related_events` (line 282). -/
def find_related_events (_a : Doc) : List String := []

/-- `project_implications` (line 285). -/
def project_implications (_a : Doc) : String := "Future implications"

/-- `JournalismPipeline.build_context` (lines 161-175). -/
def build_context (analysis : Doc) : Doc :=
  let ctx : ContextDoc :=
    { historical := get_historical_context analysis,
      stakeholder_positions := get_stakeholder_positions analysis,
      related_events := find_related_events analysis,
      future_implications := project_implications analysis }
  { analysis with context := some ctx }

/-- `calculate_bias` (line 288, always `0.0`). -/
def calculate_bias (_s : SourceDoc) : ℚ := 0

/-- The source loop of `detect_bias` (lines 189-197). -/
def detectBiasGo : List SourceDoc → BiasDoc → BiasDoc
  | [], b => b
  | s :: rest, b =>
    let bias := calculate_bias s
    let b' :=
      if bias < -(3 / 10 : ℚ) then { b with left_sources := b.left_sources ++ [s] }
      else if (3 / 10 : ℚ) < bias then { b with right_sources := b.right_sources ++ [s] }
      else { b with center_sources := b.center_sources ++ [s] }
    detectBiasGo rest b'

/-- `JournalismPipeline.detect_bias` (lines 177-202). -/
def detect_bias (analysis : Doc) : Doc :=
  { analysis with bias_analysis := some (detectBiasGo (analysis.sources.getD []) {}) }

/-- `generate_summary` (line 291). -/
def generate_summary (analysis : Doc) : String :=
  "Summary of " ++ analysis.headline.getD "story"

/-- `JournalismPipeline.prepare_publication` (lines 204-231): direct
indexing `analysis['headline']` raises `KeyError` when the key is absent;
`json.dumps` of the analysis and the SHA-256 digest are the abstracted
parameters `dumps` and `H`. -/
def prepare_publication (H : String → Nat) (dumps : Doc → String) (now : String)
    (analysis : Doc) : Except PyErr Doc :=
  match analysis.headline with
  | none => Except.error (PyErr.keyError "headline")
  | some h =>
    let publication : Doc :=
      { headline := some h, summary := some (generate_summary analysis),
        verified_facts := some (analysis.verified_facts.getD []),
        sources_cited := some (analysis.sources.getD []).length,
        bias_disclosure := analysis.bias_analysis,
        publication_time := some now, website_target := some "omniplex.earth",
        sha_signature := some (H (dumps analysis)) }
    if approve_publication publication then
      Except.ok { publication with status := some "READY_TO_PUBLISH" }
    else
      Except.ok { publication with status := some "NEEDS_HUMAN_REVIEW" }

/-- `run_journalism_pipeline` (lines 327-370): hunt the stories, then drive
the top story through arms 2-8 in order, threading the SHA map; `None` when
no stories are found. -/
def run_journalism_pipeline (H : String → Nat) (dumps : Doc → String) (now : String) :
    Option (Except PyErr (Doc × List (String × Nat))) :=
  match hunt_stories () with
  | [] => none
  | story :: _ =>
    some (do
      let a2 := analyze_story now story
      let a3 ← fact_check a2
      let r4 := verify_sources H a3 []
      let a5 := aggregate_apis r4.1
      let a6 := build_context a5
      let a7 := detect_bias a6
      let a8 ← prepare_publication H dumps now a7
      pure (a8, r4.2))

/-- C7: evaluation of the pipeline at its own demo input.  For every hash
function, serializer and clock reading, `run_journalism_pipeline` drives the
hard-coded top story through arms 2-8 and ends with status
`NEEDS_HUMAN_REVIEW` — never `READY_TO_PUBLISH` — while the SHA ledger stays
empty: no per-stage fingerprint is ever recorded, so no item carries the
complete audit trail the specification requires of published items. -/
theorem c7_demo_run_never_publishes_no_fingerprints
    (H : String → Nat) (dumps : Doc → String) (now : String) :
    (run_journalism_pipeline H dumps now).map (Except.map (fun r => (r.1.status, r.2))) =
      some (Except.ok (some "NEEDS_HUMAN_REVIEW", ([] : List (String × Nat)))) := rfl

/-- C8 counterexample: a stage function can raise a bare exception.
`prepare_publication` applied to the empty dictionary (exactly what an
ethics rejection in `analyze_story` would pass downstream) raises `KeyError`
on the direct indexing `analysis['headline']` instead of returning a typed
outcome. -/
theorem c8_counterexample :
    prepare_publication String.length (fun _ => "") "T" {} =
      Except.error (PyErr.keyError "headline") := rfl

/-- C8 amended: stage functions are exception-free along the demo execution
but are not total: along the actual run (ethics never rejects and
`extract_facts` always yields one fact) every stage returns a value, and
`fact_check` in particular never divides by zero; however
`prepare_publication` raises `KeyError` on an analysis lacking the
`headline` key (see the counterexample). -/
theorem c8_amended_demo_run_never_raises
    (H : String → Nat) (dumps : Doc → String) (now : String) (d : Doc) :
    (run_journalism_pipeline H dumps now).map exOk = some true ∧
    exOk (fact_check d) = true :=
  ⟨rfl, rfl⟩

/-- C9 counterexample: not every ethics predicate is a constant-true stub.
`OmniplexJournalismEthics.approve_publication` applied to the empty
publication dictionary returns a falsy value (it requires non-empty
`verified_facts` and a positive `sources_cited`). -/
theorem c9_counterexample : approve_publication {} = false := rfl

/-- C9 amended: `check_story_ethics` and `OmniplexConstitution.check` are
no-op stubs returning true for every input, but `approve_publication` is
not: it is truthy exactly when the publication has non-empty
`verified_facts` and a positive `sources_cited` count. -/
theorem c9_amended_ethics_stubs (story : Doc) (action data : String) (p : Doc) :
    check_story_ethics story = true ∧
    constitution_check action data = true ∧
    (approve_publication p = true ↔
      ((p.verified_facts.getD []).isEmpty = false ∧ 0 < p.sources_cited.getD 0)) := by
  refine ⟨rfl, constitution_check_true action data, ?_⟩
  simp [approve_publication]
